import Mathlib

/-!
Shallow embedding of the React Native user-list screen (`src/App.js` and the
unnamed variant `src/unnamed/part_000`) and proofs about its observable
behaviour.

The two source files are two variants of the same screen:
* `src/unnamed/part_000` ("the cooldown variant"): `onRefresh` has a
  10000 ms cooldown guarded by a `lastRefreshTime` state, and `addUser`
  shows alerts on failure (distinguishing HTTP 429);
* `src/App.js` ("the plain variant"): `onRefresh` has no cooldown and no
  `lastRefreshTime` state, and `addUser` only logs to the console on failure.

`fetchUsers`, `loadData`, `keyExtractor` and the success path of `addUser`
are identical in both variants.

Modelling conventions:
* A JS array element that may be `undefined` is an `Option UserRecord`
  (`none` = `undefined`); `jsIndex` models JS array indexing `arr[i]`,
  which yields `undefined` out of bounds, and `jsStrIndex` models JS
  string indexing `s[i]`, which likewise yields `undefined` out of bounds.
* An axios call is modelled by its outcome `HttpOutcome`: either the parsed
  response body (a JS array), or a failure carrying the optional response
  status (`none` = transport error with no `error.response` object).
* Side effects (the HTTP GET itself, `Alert.alert`, `console.error`) are
  returned as an explicit `Effect` list, in program order.
* Every handler is a total Lean function: the embedded operations return
  normally on every outcome, mirroring that the JS code catches all errors.
-/

/-- A user record as returned by the random-user API (unused fields omitted;
`id` is a JS number, always a natural number for this API). -/
structure UserRecord where
  users_id : Nat
  first_name : String
  last_name : String
  avatar : String
deriving DecidableEq, Repr

/-- A JS array slot holding a user record: `none` models `undefined`. -/
abbrev JSUser := Option UserRecord

/-- JS array indexing `arr[i]`: `undefined` (`none`) when out of bounds,
and the slot's own content (itself possibly `undefined`) when in bounds. -/
def jsIndex (arr : List JSUser) (i : Nat) : JSUser :=
  arr.getD i none

/-- JS string indexing `s[i]`: the i-th character, or `undefined` (`none`)
when out of bounds. -/
def jsStrIndex (s : String) (i : Nat) : Option Char :=
  s.data.get? i

/-- A modal alert dialog: `Alert.alert(title, message)`. -/
structure Alert where
  title : String
  message : String
deriving DecidableEq, Repr

/-- An observable side effect of a handler, in program order. -/
inductive Effect where
  | httpGet (url : String)
  | alert (a : Alert)
  | consoleError (msg : String)
deriving DecidableEq, Repr

/-- The URLs of HTTP GETs among a handler's effects, in order. -/
def getsOf (effs : List Effect) : List String :=
  effs.filterMap fun e =>
    match e with
    | .httpGet u => some u
    | _ => none

/-- The user-visible notifications (alert dialogs) among a handler's
effects, in order. Console logs are not user-visible. -/
def alertsOf (effs : List Effect) : List Alert :=
  effs.filterMap fun e =>
    match e with
    | .alert a => some a
    | _ => none

/-- The outcome of one axios GET: the parsed JSON array on success, or a
failure carrying `error.response.status` when a response exists
(`none` models a transport error where `error.response` is absent). -/
inductive HttpOutcome where
  | success (data : List JSUser)
  | failure (responseStatus : Option Nat)
deriving DecidableEq, Repr

/-- `API_URL` from both variants: the size-10 endpoint. -/
def API_URL : String := "https://random-data-api.com/api/users/random_user?size=10"

/-- The URL of the GET issued by `addUser` in both variants: the size-1
endpoint. -/
def ADD_URL : String := "https://random-data-api.com/api/users/random_user?size=1"

/-- `fetchUsers` (identical in both variants): GET `API_URL`; return
`response.data` on success; on error, if `error.response` exists and its
status is 429 show the rate-limit alert, otherwise show the generic alert;
return `[]` on any error. Never throws to its caller. -/
def fetchUsers (o : HttpOutcome) : List JSUser × List Effect :=
  match o with
  | .success data => (data, [.httpGet API_URL])
  | .failure st =>
    if st = some 429 then
      ([], [.httpGet API_URL,
            .alert ⟨"Too Many Requests", "Please wait before refreshing again."⟩,
            .consoleError "Error fetching users: Too Many Requests"])
    else
      ([], [.httpGet API_URL,
            .consoleError "Error fetching users",
            .alert ⟨"Error", "Failed to load users. Please try again later."⟩])

/-- The screen state of the cooldown variant: `useState` hooks `users`,
`refreshing`, `loading`, `lastRefreshTime` (times are JS numbers from
`Date.now()`, modelled as `Int`). The plain variant has the same state minus
`lastRefreshTime`. -/
structure ScreenState where
  users : List JSUser
  refreshing : Bool
  loading : Bool
  lastRefreshTime : Int
deriving DecidableEq, Repr

/-- The initial state: `useState([])`, `useState(false)`, `useState(true)`,
`useState(0)`. -/
def initialState : ScreenState :=
  { users := [], refreshing := false, loading := true, lastRefreshTime := 0 }

/-- `loadData` (identical in both variants): await `fetchUsers`, store the
result in `users`, then set `loading` to `false`. -/
def loadData (o : HttpOutcome) (s : ScreenState) : ScreenState × List Effect :=
  let fr := fetchUsers o
  ({ s with users := fr.1, loading := false }, fr.2)

/-- `onRefresh` of the cooldown variant, with each `set...` state update
recorded as one entry of the returned state list: if less than 10000 ms
elapsed since `lastRefreshTime`, alert and return with no state update;
otherwise set `refreshing`, fetch, store the result, clear `refreshing`,
and record `currentTime` as the last refresh time. -/
def onRefreshTrace (currentTime : Int) (o : HttpOutcome) (s : ScreenState) :
    List ScreenState × List Effect :=
  if currentTime - s.lastRefreshTime < 10000 then
    ([], [.alert ⟨"Too Many Refreshes", "Please wait 10 seconds before refreshing again."⟩])
  else
    let s1 := { s with refreshing := true }
    let fr := fetchUsers o
    let s2 := { s1 with users := fr.1 }
    let s3 := { s2 with refreshing := false }
    let s4 := { s3 with lastRefreshTime := currentTime }
    ([s1, s2, s3, s4], fr.2)

/-- The final state and effects of the cooldown variant's `onRefresh`. -/
def onRefresh (currentTime : Int) (o : HttpOutcome) (s : ScreenState) :
    ScreenState × List Effect :=
  let r := onRefreshTrace currentTime o s
  (r.1.getLastD s, r.2)

/-- `addUser` of the cooldown variant: GET the size-1 endpoint; on success
prepend `newUserResponse.data[0]` (JS indexing: `undefined` if the body is
empty) to the previous users; on error leave the list unchanged and alert,
distinguishing HTTP 429. -/
def addUser (o : HttpOutcome) (prevUsers : List JSUser) :
    List JSUser × List Effect :=
  match o with
  | .success data => (jsIndex data 0 :: prevUsers, [.httpGet ADD_URL])
  | .failure st =>
    if st = some 429 then
      (prevUsers, [.httpGet ADD_URL,
                   .alert ⟨"Too Many Requests", "Please wait before adding more users."⟩])
    else
      (prevUsers, [.httpGet ADD_URL,
                   .consoleError "Error fetching new user: ",
                   .alert ⟨"Error", "Failed to add a new user. Please try again."⟩])

/-- `addUser` of the plain variant (`src/App.js`): same success path, but on
any error it only logs to the console and shows no alert. -/
def addUserV1 (o : HttpOutcome) (prevUsers : List JSUser) :
    List JSUser × List Effect :=
  match o with
  | .success data => (jsIndex data 0 :: prevUsers, [.httpGet ADD_URL])
  | .failure _ =>
    (prevUsers, [.httpGet ADD_URL, .consoleError "Error fetching new user: "])

/-- `keyExtractor`: `(item) => item.id.toString()`. On an `undefined` slot
the member access throws, so the key is undefined (`none`). -/
def keyExtractor (item : JSUser) : Option String :=
  item.map fun r => toString r.users_id

/-- The iOS initials badge of the cooldown variant's `renderItem`:
the characters `item.first_name[0]` and `item.last_name[0]` joined, with no
emptiness guard on either name; `none` records that one of the two unguarded
accesses fell out of bounds and produced `undefined`. -/
def iosBadgeText (item : UserRecord) : Option String :=
  match jsStrIndex item.first_name 0, jsStrIndex item.last_name 0 with
  | some c1, some c2 => some (String.mk [c1, c2])
  | _, _ => none

/-- The parameterized Data Fetcher endpoint. Modelled from the spec:
the contract `fetchBatch(count)` says the fetcher issues one HTTP GET to the
external random-user endpoint with a size query parameter equal to the
requested count; the code realizes it at the two fixed counts 10 and 1. -/
def sizeURL (n : Nat) : String :=
  "https://random-data-api.com/api/users/random_user?size=" ++ toString n

/-- A concrete user record used to evaluate the definitions on closed
inputs. -/
def sampleUser : UserRecord :=
  { users_id := 7, first_name := "Ada", last_name := "Lovelace", avatar := "u" }

/-- A concrete successful one-record response body. -/
def sampleBatch : HttpOutcome := HttpOutcome.success [some sampleUser]

/-! ### Injectivity of the decimal printing used by `keyExtractor`

`item.id.toString()` is modelled by `toString : Nat → String`, which is
`Nat.repr`. The lemmas below prove `Nat.repr` injective by exhibiting a
left inverse (`decValue`), so that distinct ids give distinct row keys. -/

/-- The numeric value of a decimal digit character (left inverse of
`Nat.digitChar` on digits below 10). -/
def digitVal (c : Char) : Nat :=
  if c = '0' then 0 else
  if c = '1' then 1 else
  if c = '2' then 2 else
  if c = '3' then 3 else
  if c = '4' then 4 else
  if c = '5' then 5 else
  if c = '6' then 6 else
  if c = '7' then 7 else
  if c = '8' then 8 else
  if c = '9' then 9 else 10

/-- Evaluate a big-endian list of decimal digit characters. -/
def decValue (cs : List Char) : Nat :=
  cs.foldl (fun a c => 10 * a + digitVal c) 0

/-- The big-endian decimal digit characters of a natural number (the
fuel-free counterpart of `Nat.toDigitsCore` at base 10). -/
def decDigits (n : Nat) : List Char :=
  if n < 10 then [Nat.digitChar n]
  else decDigits (n / 10) ++ [Nat.digitChar (n % 10)]
termination_by n
decreasing_by exact Nat.div_lt_self (by omega) (by omega)

theorem digitVal_digitChar {d : Nat} (h : d < 10) :
    digitVal (Nat.digitChar d) = d := by
  interval_cases d <;> rfl

theorem decValue_append_singleton (cs : List Char) (c : Char) :
    decValue (cs ++ [c]) = 10 * decValue cs + digitVal c := by
  simp [decValue, List.foldl_append]

theorem decValue_decDigits (n : Nat) : decValue (decDigits n) = n := by
  induction n using Nat.strong_induction_on with
  | _ n ih =>
    rw [decDigits]
    by_cases h : n < 10
    · simp only [if_pos h]
      show 10 * 0 + digitVal (Nat.digitChar n) = n
      rw [digitVal_digitChar h]
      omega
    · simp only [if_neg h]
      rw [decValue_append_singleton,
        ih (n / 10) (Nat.div_lt_self (by omega) (by omega)),
        digitVal_digitChar (Nat.mod_lt _ (by omega))]
      omega

theorem toDigitsCore_eq_decDigits (fuel n : Nat) (acc : List Char)
    (h : n < fuel) : Nat.toDigitsCore 10 fuel n acc = decDigits n ++ acc := by
  induction fuel generalizing n acc with
  | zero => omega
  | succ fuel ih =>
    show (if n / 10 = 0 then Nat.digitChar (n % 10) :: acc
      else Nat.toDigitsCore 10 fuel (n / 10) (Nat.digitChar (n % 10) :: acc)) =
      decDigits n ++ acc
    by_cases h0 : n / 10 = 0
    · have hn : n < 10 := by omega
      rw [if_pos h0, decDigits, if_pos hn, Nat.mod_eq_of_lt hn]
      rfl
    · have hn : ¬ n < 10 := by omega
      have hlt : n / 10 < fuel :=
        Nat.lt_of_lt_of_le (Nat.div_lt_self (by omega) (by omega)) (by omega)
      rw [if_neg h0, decDigits, if_neg hn, List.append_assoc,
        ih (n / 10) _ hlt]
      rfl

theorem natRepr_eq_decDigits (n : Nat) :
    Nat.repr n = (decDigits n).asString := by
  show (Nat.toDigits 10 n).asString = (decDigits n).asString
  rw [Nat.toDigits, toDigitsCore_eq_decDigits (n + 1) n [] (by omega),
    List.append_nil]

theorem natRepr_injective : Function.Injective Nat.repr := by
  intro a b h
  rw [natRepr_eq_decDigits, natRepr_eq_decDigits] at h
  have hd : decDigits a = decDigits b := by
    have := congrArg String.data h
    simpa [List.asString] using this
  have := congrArg decValue hd
  rwa [decValue_decDigits, decValue_decDigits] at this

/-! ### Shared helper lemmas -/

theorem getsOf_fetchUsers (o : HttpOutcome) :
    getsOf (fetchUsers o).2 = [API_URL] := by
  cases o with
  | success data => rfl
  | failure st => by_cases h : st = some 429 <;> simp [fetchUsers, h, getsOf]

theorem alertsOf_fetchUsers_failure (st : Option Nat) :
    alertsOf (fetchUsers (.failure st)).2 =
      [if st = some 429 then
        ⟨"Too Many Requests", "Please wait before refreshing again."⟩
       else ⟨"Error", "Failed to load users. Please try again later."⟩] := by
  by_cases h : st = some 429 <;> simp [fetchUsers, h, alertsOf]

theorem getsOf_addUser (o : HttpOutcome) (prev : List JSUser) :
    getsOf (addUser o prev).2 = [ADD_URL] := by
  cases o with
  | success data => rfl
  | failure st => by_cases h : st = some 429 <;> simp [addUser, h, getsOf]

theorem getsOf_addUserV1 (o : HttpOutcome) (prev : List JSUser) :
    getsOf (addUserV1 o prev).2 = [ADD_URL] := by
  cases o with
  | success data => rfl
  | failure st => rfl

theorem onRefreshTrace_cooldown (t : Int) (o : HttpOutcome) (s : ScreenState)
    (h : t - s.lastRefreshTime < 10000) :
    onRefreshTrace t o s =
      ([], [.alert ⟨"Too Many Refreshes",
        "Please wait 10 seconds before refreshing again."⟩]) := by
  simp only [onRefreshTrace, if_pos h]

theorem onRefreshTrace_accepted (t : Int) (o : HttpOutcome) (s : ScreenState)
    (h : ¬ (t - s.lastRefreshTime < 10000)) :
    onRefreshTrace t o s =
      ([{ s with refreshing := true },
        { s with refreshing := true, users := (fetchUsers o).1 },
        { s with refreshing := false, users := (fetchUsers o).1 },
        { s with refreshing := false, users := (fetchUsers o).1, lastRefreshTime := t }],
       (fetchUsers o).2) := by
  simp only [onRefreshTrace, if_neg h]

theorem data_ne_nil_of_ne_empty {s : String} (h : s ≠ "") : s.data ≠ [] := by
  intro hd
  apply h
  cases s with
  | mk d => cases hd; rfl

/-! ### Claim theorems -/

/-- Claim C1: a pull-to-refresh issued while the elapsed time since the last
accepted refresh is below the 10000 ms cooldown performs zero network calls,
surfaces exactly one user-visible notification (the cooldown alert), and
leaves the whole screen state — record sequence, refreshing flag and
last-refresh timestamp — unchanged. -/
theorem claim_C1_cooldown_rejects_refresh (t : Int) (o : HttpOutcome)
    (s : ScreenState) (h : t - s.lastRefreshTime < 10000) :
    (onRefresh t o s).1 = s ∧
    getsOf (onRefresh t o s).2 = [] ∧
    alertsOf (onRefresh t o s).2 =
      [⟨"Too Many Refreshes", "Please wait 10 seconds before refreshing again."⟩] := by
  refine ⟨?_, ?_, ?_⟩ <;>
    simp [onRefresh, onRefreshTrace_cooldown t o s h, getsOf, alertsOf]

/-- Witness for C1 at a concrete input: 500 ms after the initial state's
last-refresh time, a refresh attempt is rejected. -/
theorem claim_C1_witness :
    ((500 : Int) - initialState.lastRefreshTime < 10000) ∧
    ((onRefresh 500 (HttpOutcome.failure none) initialState).1 = initialState ∧
     getsOf (onRefresh 500 (HttpOutcome.failure none) initialState).2 = [] ∧
     alertsOf (onRefresh 500 (HttpOutcome.failure none) initialState).2 =
       [⟨"Too Many Refreshes", "Please wait 10 seconds before refreshing again."⟩]) :=
  ⟨by decide,
   claim_C1_cooldown_rejects_refresh 500 (HttpOutcome.failure none) initialState (by decide)⟩

/-- Claim C2: `fetchUsers` is total (never raises to its caller): on success
it returns the parsed body with no notification; on any failure it returns
the empty sequence and surfaces exactly one notification, and the HTTP 429
notification differs (title and message) from the one of every other
failure. -/
theorem claim_C2_fetch_absorbs_failures :
    (∀ data : List JSUser,
      fetchUsers (.success data) = (data, [.httpGet API_URL])) ∧
    (∀ st : Option Nat,
      (fetchUsers (.failure st)).1 = [] ∧
      alertsOf (fetchUsers (.failure st)).2 =
        [if st = some 429 then
           ⟨"Too Many Requests", "Please wait before refreshing again."⟩
         else ⟨"Error", "Failed to load users. Please try again later."⟩]) ∧
    (⟨"Too Many Requests", "Please wait before refreshing again."⟩ : Alert) ≠
      ⟨"Error", "Failed to load users. Please try again later."⟩ := by
  refine ⟨fun data => rfl, fun st => ⟨?_, alertsOf_fetchUsers_failure st⟩, by decide⟩
  by_cases h : st = some 429 <;> simp [fetchUsers, h]

/-- Claim C3: after the initial fetch resolves — whatever its outcome — the
record sequence is replaced with the fetch result and the loading flag is
false; the other state fields are untouched. -/
theorem claim_C3_loading_becomes_false (o : HttpOutcome) (s : ScreenState) :
    (loadData o s).1.users = (fetchUsers o).1 ∧
    (loadData o s).1.loading = false ∧
    (loadData o s).1.refreshing = s.refreshing ∧
    (loadData o s).1.lastRefreshTime = s.lastRefreshTime ∧
    (loadData o s).2 = (fetchUsers o).2 :=
  ⟨rfl, rfl, rfl, rfl, rfl⟩

/-- Claim C4: a refresh that passes the cooldown check sets the refreshing
flag, issues exactly one GET (the size-10 endpoint), replaces the record
sequence wholesale with the fetch result, clears the refreshing flag, and
records the current time as the last accepted refresh — each state update
appearing in this order in the trace. -/
theorem claim_C4_accepted_refresh_replaces (t : Int) (o : HttpOutcome)
    (s : ScreenState) (h : ¬ (t - s.lastRefreshTime < 10000)) :
    (onRefreshTrace t o s).1 =
      [{ s with refreshing := true },
       { s with refreshing := true, users := (fetchUsers o).1 },
       { s with refreshing := false, users := (fetchUsers o).1 },
       { s with refreshing := false, users := (fetchUsers o).1, lastRefreshTime := t }] ∧
    (onRefresh t o s).1 =
      { s with refreshing := false, users := (fetchUsers o).1, lastRefreshTime := t } ∧
    getsOf (onRefresh t o s).2 = [API_URL] := by
  refine ⟨?_, ?_, ?_⟩ <;>
    simp [onRefresh, onRefreshTrace_accepted t o s h, getsOf_fetchUsers]

/-- Witness for C4 at a concrete input: 20000 ms after the initial state's
last-refresh time, a refresh with a successful one-record batch goes
through. -/
theorem claim_C4_witness :
    (¬ ((20000 : Int) - initialState.lastRefreshTime < 10000)) ∧
    ((onRefreshTrace 20000 sampleBatch initialState).1 =
      [{ initialState with refreshing := true },
       { initialState with refreshing := true, users := (fetchUsers sampleBatch).1 },
       { initialState with refreshing := false, users := (fetchUsers sampleBatch).1 },
       { initialState with refreshing := false, users := (fetchUsers sampleBatch).1, lastRefreshTime := 20000 }] ∧
     (onRefresh 20000 sampleBatch initialState).1 =
      { initialState with refreshing := false, users := (fetchUsers sampleBatch).1, lastRefreshTime := 20000 } ∧
     getsOf (onRefresh 20000 sampleBatch initialState).2 = [API_URL]) :=
  ⟨by decide,
   claim_C4_accepted_refresh_replaces 20000 sampleBatch initialState (by decide)⟩

/-- Claim C5: a successful add-action prepends the returned record: the new
sequence is one longer, the returned record sits at position 0, and every
previously held slot reappears at its old position shifted by one. -/
theorem claim_C5_add_prepends (data prev : List JSUser) (r : UserRecord)
    (h : jsIndex data 0 = some r) :
    (addUser (HttpOutcome.success data) prev).1 = some r :: prev ∧
    (addUser (HttpOutcome.success data) prev).1.length = prev.length + 1 ∧
    jsIndex (addUser (HttpOutcome.success data) prev).1 0 = some r ∧
    ∀ i : Nat,
      jsIndex (addUser (HttpOutcome.success data) prev).1 (i + 1) = jsIndex prev i := by
  have e : (addUser (HttpOutcome.success data) prev).1 = some r :: prev := by
    show jsIndex data 0 :: prev = some r :: prev
    rw [h]
  refine ⟨e, ?_, ?_, ?_⟩ <;> simp [e, jsIndex]

/-- Witness for C5 at a concrete input: adding to a one-slot list. -/
theorem claim_C5_witness :
    jsIndex [some sampleUser] 0 = some sampleUser ∧
    ((addUser (HttpOutcome.success [some sampleUser]) ([none] : List JSUser)).1 =
       some sampleUser :: ([none] : List JSUser) ∧
     (addUser (HttpOutcome.success [some sampleUser]) ([none] : List JSUser)).1.length =
       ([none] : List JSUser).length + 1 ∧
     jsIndex (addUser (HttpOutcome.success [some sampleUser]) ([none] : List JSUser)).1 1 =
       jsIndex ([none] : List JSUser) 0) :=
  have hc :=
    claim_C5_add_prepends [some sampleUser] ([none] : List JSUser) sampleUser (by decide)
  ⟨by decide, hc.1, hc.2.1, hc.2.2.2 0⟩

/-- Claim C6 counterexample: in the plain variant (`src/App.js`), a failed
add-action (here a transport error on the empty list) leaves the sequence
unchanged but surfaces zero user-visible notifications — the catch block
only logs to the console — refuting that every failed add-action surfaces a
notification. -/
theorem claim_C6_counterexample :
    (addUserV1 (HttpOutcome.failure none) []).1 = [] ∧
    alertsOf (addUserV1 (HttpOutcome.failure none) []).2 = [] := by decide

/-- Claim C6 as amended: every failed add-action leaves the record sequence
exactly unchanged in both variants; the cooldown variant surfaces exactly
one notification, while the plain variant surfaces none. -/
theorem claim_C6_amended_failed_add (st : Option Nat) (prev : List JSUser) :
    (addUser (HttpOutcome.failure st) prev).1 = prev ∧
    (alertsOf (addUser (HttpOutcome.failure st) prev).2).length = 1 ∧
    (addUserV1 (HttpOutcome.failure st) prev).1 = prev ∧
    alertsOf (addUserV1 (HttpOutcome.failure st) prev).2 = [] := by
  by_cases h : st = some 429 <;> simp [addUser, addUserV1, h, alertsOf]

/-- Claim C7: each fetch invocation issues exactly one HTTP GET to the
random-user endpoint whose size query parameter equals the requested count:
`fetchUsers` (batch of 10) requests `sizeURL 10` and the add-action (batch
of 1) requests `sizeURL 1`, in both variants, on every outcome. -/
theorem claim_C7_one_get_per_invocation (o : HttpOutcome) (prev : List JSUser) :
    API_URL = sizeURL 10 ∧ ADD_URL = sizeURL 1 ∧
    getsOf (fetchUsers o).2 = [sizeURL 10] ∧
    getsOf (addUser o prev).2 = [sizeURL 1] ∧
    getsOf (addUserV1 o prev).2 = [sizeURL 1] := by
  have h10 : API_URL = sizeURL 10 := by decide
  have h1 : ADD_URL = sizeURL 1 := by decide
  refine ⟨h10, h1, ?_, ?_, ?_⟩
  · rw [getsOf_fetchUsers, h10]
  · rw [getsOf_addUser, h1]
  · rw [getsOf_addUserV1, h1]

/-- Claim C8: each row's key is the decimal string of the record's
identifier, and a batch whose identifiers are pairwise distinct yields
pairwise distinct row keys. -/
theorem claim_C8_row_keys_unique (batch : List UserRecord) (r : UserRecord)
    (h : (batch.map fun x => x.users_id).Nodup) :
    keyExtractor (some r) = some (toString r.users_id) ∧
    (batch.map fun x => keyExtractor (some x)).Nodup := by
  refine ⟨rfl, ?_⟩
  have e : (batch.map fun x => keyExtractor (some x)) =
      (batch.map fun x => x.users_id).map fun n => some (toString n) := by
    simp [List.map_map, keyExtractor]
  rw [e]
  exact h.map fun a b hab => natRepr_injective (Option.some.inj hab)

/-- Witness for C8 at a concrete input: a two-record batch with distinct
identifiers. -/
theorem claim_C8_witness :
    (([⟨1, "A", "B", "x"⟩, ⟨2, "C", "D", "y"⟩] : List UserRecord).map
       fun x => x.users_id).Nodup ∧
    (keyExtractor (some sampleUser) = some (toString sampleUser.users_id) ∧
     (([⟨1, "A", "B", "x"⟩, ⟨2, "C", "D", "y"⟩] : List UserRecord).map
        fun x => keyExtractor (some x)).Nodup) :=
  ⟨by decide, claim_C8_row_keys_unique _ sampleUser (by decide)⟩

/-- Claim C9: the iOS initials badge reads index 0 of both names with no
emptiness guard: when both names are non-empty, both accesses are in bounds
and the badge is the first character of the first name followed by the first
character of the last name; on an empty name the unguarded access falls out
of bounds, so non-emptiness is a genuine precondition. -/
theorem claim_C9_initials_need_nonempty_names (item : UserRecord)
    (h1 : item.first_name ≠ "") (h2 : item.last_name ≠ "") :
    (jsStrIndex item.first_name 0).isSome = true ∧
    (jsStrIndex item.last_name 0).isSome = true ∧
    iosBadgeText item =
      some (String.mk (item.first_name.data.take 1 ++ item.last_name.data.take 1)) ∧
    jsStrIndex "" 0 = none ∧
    iosBadgeText { users_id := 0, first_name := "", last_name := "", avatar := "" } =
      none := by
  obtain ⟨c1, l1, e1⟩ := List.exists_cons_of_ne_nil (data_ne_nil_of_ne_empty h1)
  obtain ⟨c2, l2, e2⟩ := List.exists_cons_of_ne_nil (data_ne_nil_of_ne_empty h2)
  refine ⟨?_, ?_, ?_, rfl, rfl⟩ <;> simp [jsStrIndex, iosBadgeText, e1, e2]

/-- Witness for C9 at a concrete input: a record with non-empty names. -/
theorem claim_C9_witness :
    sampleUser.first_name ≠ "" ∧ sampleUser.last_name ≠ "" ∧
    ((jsStrIndex sampleUser.first_name 0).isSome = true ∧
     (jsStrIndex sampleUser.last_name 0).isSome = true ∧
     iosBadgeText sampleUser =
       some (String.mk (sampleUser.first_name.data.take 1 ++
         sampleUser.last_name.data.take 1)) ∧
     jsStrIndex "" 0 = none ∧
     iosBadgeText { users_id := 0, first_name := "", last_name := "", avatar := "" } =
       none) :=
  ⟨by decide, by decide,
   claim_C9_initials_need_nonempty_names sampleUser (by decide) (by decide)⟩

/-- Claim C10: the add-action prepends element 0 of the response body with no
emptiness check: when the body holds at least one record the prepended slot
is that record and its key extraction is defined; when the body is the empty
array the prepended slot is the undefined value, on which key extraction is
not defined. -/
theorem claim_C10_add_unguarded_index (data prev : List JSUser) (r : UserRecord)
    (h : jsIndex data 0 = some r) :
    (addUser (HttpOutcome.success data) prev).1 = some r :: prev ∧
    keyExtractor (jsIndex data 0) = some (toString r.users_id) ∧
    (addUser (HttpOutcome.success []) prev).1 = none :: prev ∧
    keyExtractor (jsIndex [] 0) = none := by
  refine ⟨?_, ?_, rfl, rfl⟩
  · show jsIndex data 0 :: prev = some r :: prev
    rw [h]
  · rw [h]
    rfl

/-- Witness for C10 at a concrete input: a one-record body and the empty
body. -/
theorem claim_C10_witness :
    jsIndex [some sampleUser] 0 = some sampleUser ∧
    ((addUser (HttpOutcome.success [some sampleUser]) []).1 = [some sampleUser] ∧
     keyExtractor (jsIndex [some sampleUser] 0) = some (toString sampleUser.users_id) ∧
     (addUser (HttpOutcome.success []) ([] : List JSUser)).1 = [none] ∧
     keyExtractor (jsIndex [] 0) = none) :=
  ⟨by decide, claim_C10_add_unguarded_index [some sampleUser] [] sampleUser (by decide)⟩
